import Mathlib

/-!
Formal model of the agrosphere-backend internal ledger and token-transfer
engine (`src/blockchain`): wallet balance operations (`models.Wallet`),
the transaction record and its platform fee (`models.Transaction`), the
transfer view (`views.transfer_tokens`), the Ethereum service transfer and
verification logic (`ethereum_service.EthereumService`), and the
reconciliation sweeper tasks (`tasks.sync_pending_transactions`,
`tasks.handle_failed_transaction`, `tasks.process_confirmed_transaction`).

Monetary quantities (2-decimal fixed point `Decimal` in the source) are
modelled as `Rat`: Python `Decimal` addition, subtraction and
multiplication are exact, so `Rat` arithmetic agrees with the source on
every operation performed here.
-/

namespace Agrosphere

/-- Error outcomes surfaced by the ledger code: `ValueError("Insufficient
balance")` from `Wallet.deduct_balance`, the transfer view's 400/404
responses, the wrapped `Exception("Transfer failed: ...")` from
`EthereumService.transfer_tokens`, and the database `IntegrityError` on a
duplicate unique `ethereum_tx_hash`. -/
inductive LedgerError
  | insufficientBalance
  | invalidAmount
  | recipientNotFound
  | selfTransferNotAllowed
  | transferFailed
  | duplicateReference
  deriving DecidableEq, Repr

/-- `blockchain.models.Wallet`: the fields the ledger operations touch.
`agrocoin_balance` and `naira_equivalent` are 2-decimal `Decimal` fields in
the source. -/
structure Wallet where
  wallet_id : Nat
  agrocoin_balance : Rat
  naira_equivalent : Rat
  deriving DecidableEq, Repr

/-- `Wallet.update_naira_equivalent`: recomputes the cached fiat value as
`agrocoin_balance * AGROCOIN_TO_NAIRA_RATE` and saves. -/
def update_naira_equivalent (rate : Rat) (w : Wallet) : Wallet :=
  { w with naira_equivalent := w.agrocoin_balance * rate }

/-- `Wallet.has_sufficient_balance`: `self.agrocoin_balance >= Decimal(str(amount))`. -/
def has_sufficient_balance (w : Wallet) (amount : Rat) : Bool :=
  amount ≤ w.agrocoin_balance

/-- `Wallet.add_balance`: unconditionally adds `amount` to the balance and
recomputes the fiat equivalent.  The source performs no validation of
`amount` whatsoever. -/
def add_balance (rate : Rat) (w : Wallet) (amount : Rat) : Wallet :=
  update_naira_equivalent rate
    { w with agrocoin_balance := w.agrocoin_balance + amount }

/-- `Wallet.deduct_balance`: raises `ValueError("Insufficient balance")`
unless `has_sufficient_balance`, otherwise subtracts `amount` and
recomputes the fiat equivalent. -/
def deduct_balance (rate : Rat) (w : Wallet) (amount : Rat) :
    Except LedgerError Wallet :=
  if has_sufficient_balance w amount then
    Except.ok (update_naira_equivalent rate
      { w with agrocoin_balance := w.agrocoin_balance - amount })
  else
    Except.error LedgerError.insufficientBalance

/-- One ledger mutation: a credit (`Wallet.add_balance`) or a debit
(`Wallet.deduct_balance`). -/
inductive LedgerOp
  | credit (amount : Rat)
  | debit (amount : Rat)
  deriving DecidableEq, Repr

/-- Apply one ledger operation to a wallet.  A debit that the source
rejects (raises `ValueError`) leaves the wallet unchanged: the exception
aborts before any mutation. -/
def applyOp (rate : Rat) (w : Wallet) : LedgerOp → Wallet
  | LedgerOp.credit a => add_balance rate w a
  | LedgerOp.debit a =>
      match deduct_balance rate w a with
      | Except.ok w2 => w2
      | Except.error _ => w

/-- Run a sequence of ledger operations against a wallet. -/
def runOps (rate : Rat) (w : Wallet) (ops : List LedgerOp) : Wallet :=
  ops.foldl (applyOp rate) w

/-- Every credit in the sequence carries a nonnegative amount. -/
def creditAmountsNonneg (ops : List LedgerOp) : Bool :=
  ops.all fun op =>
    match op with
    | LedgerOp.credit a => decide (0 ≤ a)
    | LedgerOp.debit _ => true

/-- A concrete wallet used to evaluate the model on specific inputs. -/
def demoWallet (b : Rat) : Wallet :=
  { wallet_id := 1, agrocoin_balance := b, naira_equivalent := 0 }

/-- `Transaction.TRANSACTION_TYPE_CHOICES`. -/
inductive TxType
  | purchase
  | transfer
  | payment
  | reward
  | refund
  | investment
  | investment_return
  | expert_payment
  | marketplace_purchase
  deriving DecidableEq, Repr

/-- `Transaction.STATUS_CHOICES`. -/
inductive TxStatus
  | pending
  | processing
  | confirmed
  | failed
  | cancelled
  deriving DecidableEq, Repr

/-- `blockchain.models.Transaction`: the fields used by the transfer view
and the sweeper.  `ethereum_tx_hash` is the nullable, unique external
settlement reference; timestamps are abstracted to hour counters. -/
structure Transaction where
  tx_id : Nat
  from_wallet : Option Nat
  to_wallet : Option Nat
  transaction_type : TxType
  amount : Rat
  naira_value : Rat
  ethereum_tx_hash : Option String
  block_number : Option Nat
  gas_used : Option Nat
  status : TxStatus
  platform_fee : Rat
  created_at : Nat
  confirmed_at : Option Nat
  deriving DecidableEq, Repr

/-- `Transaction.calculate_platform_fee`: assigns
`amount * PLATFORM_COMMISSION_RATE` to `platform_fee` for the kinds
`payment`, `expert_payment`, `marketplace_purchase`, and for all other
kinds leaves the field untouched; returns the (possibly updated) record
together with the returned `self.platform_fee`. -/
def calculate_platform_fee (commission_rate : Rat) (tx : Transaction) :
    Transaction × Rat :=
  if tx.transaction_type = TxType.payment ∨
      tx.transaction_type = TxType.expert_payment ∨
      tx.transaction_type = TxType.marketplace_purchase then
    let fee := tx.amount * commission_rate
    ({ tx with platform_fee := fee }, fee)
  else
    (tx, tx.platform_fee)

/-- `Transaction.get_net_amount`: `self.amount - self.platform_fee`. -/
def get_net_amount (tx : Transaction) : Rat :=
  tx.amount - tx.platform_fee

/-- Outcome of `EthereumService._execute_token_transfer` in non-demo mode:
either the transaction hash (the source waits for the receipt and returns
the hash only when `receipt.status == 1`), or a raised exception (network
timeout, rejected receipt, nonce or RPC failure). -/
inductive SettlementOutcome
  | submitted (tx_hash : String)
  | exception
  deriving DecidableEq, Repr

/-- The dict returned by `EthereumService.transfer_tokens` on success:
`{'transaction_hash', 'from_address', 'to_address', 'amount',
'status': 'confirmed'}` (addresses modelled by wallet ids). -/
structure TransferResult where
  transaction_hash : String
  from_address : Nat
  to_address : Nat
  result_amount : Rat
  result_status : TxStatus
  deriving DecidableEq, Repr

/-- `EthereumService.transfer_tokens`: re-checks sufficiency, obtains a
transaction hash (a mock hash in `DEMO_MODE`, otherwise the result of the
synchronous `_execute_token_transfer` which waits for the receipt), then
immediately deducts the sender and credits the recipient, and returns a
result whose status is always `'confirmed'`.  Any raised error is wrapped
into `Exception("Transfer failed: ...")`, modelled by the error branch;
the exception aborts before either balance mutation. -/
def ethereum_transfer_tokens (demo_mode : Bool) (demo_hash : String)
    (settle : SettlementOutcome) (rate : Rat) (from_w to_w : Wallet)
    (amount : Rat) : Except LedgerError (Wallet × Wallet × TransferResult) :=
  if ¬ has_sufficient_balance from_w amount then
    Except.error LedgerError.transferFailed
  else
    let hash? : Option String :=
      if demo_mode then some demo_hash
      else
        match settle with
        | SettlementOutcome.submitted h => some h
        | SettlementOutcome.exception => none
    match hash? with
    | none => Except.error LedgerError.transferFailed
    | some h =>
      match deduct_balance rate from_w amount with
      | Except.error _ => Except.error LedgerError.transferFailed
      | Except.ok from2 =>
        let to2 := add_balance rate to_w amount
        Except.ok (from2, to2,
          { transaction_hash := h
            from_address := from_w.wallet_id
            to_address := to_w.wallet_id
            result_amount := amount
            result_status := TxStatus.confirmed })

/-- HTTP outcome of `views.transfer_tokens`. -/
inductive TransferViewResult
  | created (sender : Wallet) (recipient : Wallet) (txn : Transaction)
  | badRequest (e : LedgerError)
  | notFound
  | serverError
  deriving DecidableEq, Repr

/-- `views.transfer_tokens`: validation order as in the source — amount
positivity, sender sufficiency, recipient lookup, self-transfer guard —
then, inside `transaction.atomic()`, the Ethereum service transfer and the
creation of a `confirmed` Transaction carrying the returned hash.  On any
exception the atomic block rolls back: the returned wallet states and the
transaction list are unchanged.  The result also carries the post-request
persistent state (sender, recipient lookup, transaction list). -/
def viewTransferTokens (demo_mode : Bool) (demo_hash : String)
    (settle : SettlementOutcome) (rate : Rat) (next_id now : Nat)
    (sender : Wallet) (recipient_lookup : Option Wallet)
    (recipient_is_self : Bool) (amount : Rat) (txs : List Transaction) :
    TransferViewResult × Wallet × Option Wallet × List Transaction :=
  if amount ≤ 0 then
    (TransferViewResult.badRequest LedgerError.invalidAmount,
      sender, recipient_lookup, txs)
  else if ¬ has_sufficient_balance sender amount then
    (TransferViewResult.badRequest LedgerError.insufficientBalance,
      sender, recipient_lookup, txs)
  else
    match recipient_lookup with
    | none => (TransferViewResult.notFound, sender, recipient_lookup, txs)
    | some recipient =>
      if recipient_is_self then
        (TransferViewResult.badRequest LedgerError.selfTransferNotAllowed,
          sender, recipient_lookup, txs)
      else
        match ethereum_transfer_tokens demo_mode demo_hash settle rate
            sender recipient amount with
        | Except.error _ =>
            (TransferViewResult.serverError, sender, recipient_lookup, txs)
        | Except.ok (sender2, recipient2, result) =>
          let txn : Transaction :=
            { tx_id := next_id
              from_wallet := some sender.wallet_id
              to_wallet := some recipient.wallet_id
              transaction_type := TxType.transfer
              amount := amount
              naira_value := amount * rate
              ethereum_tx_hash := some result.transaction_hash
              block_number := none
              gas_used := none
              status := TxStatus.confirmed
              platform_fee := 0
              created_at := now
              confirmed_at := some now }
          (TransferViewResult.created sender2 recipient2 txn,
            sender2, some recipient2, txn :: txs)

/-- What the chain reports for a hash, as observed through web3 by
`EthereumService.verify_transaction`: a mined receipt with success or
failure status, a transaction still in the mempool, an unknown hash, or a
raised network/RPC error (timeouts included). -/
inductive ChainReport
  | receiptOk (block gas : Nat)
  | receiptFailed (block gas : Nat)
  | inMempool
  | missing
  | rpcError
  deriving DecidableEq, Repr

/-- The `'status'` strings produced by `EthereumService.verify_transaction`. -/
inductive VerifyStatus
  | confirmedS
  | failedS
  | pendingS
  | notFoundS
  | errorS
  deriving DecidableEq, Repr

/-- The dict returned by `EthereumService.verify_transaction`. -/
structure Verification where
  verified_confirmed : Bool
  vstatus : VerifyStatus
  v_block_number : Option Nat
  v_gas_used : Option Nat
  deriving DecidableEq, Repr

/-- `EthereumService.verify_transaction`: a mined receipt yields
`confirmed`/`failed` with block and gas data; no receipt but a visible
transaction yields `pending`; neither yields `not_found`; any raised
exception yields `{'confirmed': False, 'status': 'error'}`. -/
def verify_transaction : ChainReport → Verification
  | ChainReport.receiptOk b g =>
      { verified_confirmed := true, vstatus := VerifyStatus.confirmedS,
        v_block_number := some b, v_gas_used := some g }
  | ChainReport.receiptFailed b g =>
      { verified_confirmed := false, vstatus := VerifyStatus.failedS,
        v_block_number := some b, v_gas_used := some g }
  | ChainReport.inMempool =>
      { verified_confirmed := false, vstatus := VerifyStatus.pendingS,
        v_block_number := none, v_gas_used := none }
  | ChainReport.missing =>
      { verified_confirmed := false, vstatus := VerifyStatus.notFoundS,
        v_block_number := none, v_gas_used := none }
  | ChainReport.rpcError =>
      { verified_confirmed := false, vstatus := VerifyStatus.errorS,
        v_block_number := none, v_gas_used := none }

/-- Effect of one loop iteration of `tasks.sync_pending_transactions` on a
single transaction: the updated record, and which follow-up Celery task
was enqueued (`process_confirmed_transaction.delay` or
`handle_failed_transaction.delay`). -/
structure SweepEffect where
  tx_after : Transaction
  enqueue_confirmed : Bool
  enqueue_failed : Bool
  deriving DecidableEq, Repr

/-- One iteration of the sweep loop in `tasks.sync_pending_transactions`:
a transaction without a hash is skipped; otherwise the chain is queried;
`verification['confirmed']` advances the record to `confirmed` (setting
`confirmed_at`, `block_number`, `gas_used`) and enqueues the confirmation
task; `verification['status'] == 'failed'` marks the record `failed` and
enqueues the failure handler; every other verification outcome leaves the
record untouched. -/
def sync_one (chain : String → ChainReport) (now : Nat) (tx : Transaction) :
    SweepEffect :=
  match tx.ethereum_tx_hash with
  | none => { tx_after := tx, enqueue_confirmed := false, enqueue_failed := false }
  | some h =>
    let v := verify_transaction (chain h)
    if v.verified_confirmed then
      let tx2 := { tx with
        status := TxStatus.confirmed
        confirmed_at := some now
        block_number := v.v_block_number
        gas_used := v.v_gas_used }
      { tx_after := tx2
        enqueue_confirmed := true
        enqueue_failed := false }
    else if v.vstatus = VerifyStatus.failedS then
      { tx_after := { tx with status := TxStatus.failed }
        enqueue_confirmed := false
        enqueue_failed := true }
    else
      { tx_after := tx, enqueue_confirmed := false, enqueue_failed := false }

/-- The queryset filter of `tasks.sync_pending_transactions`: only
transactions in `pending`/`processing` created within the last 24 hours
are selected for a sweep. -/
def sweep_selects (now : Nat) (tx : Transaction) : Bool :=
  (tx.status == TxStatus.pending || tx.status == TxStatus.processing) &&
    decide (now ≤ tx.created_at + 24)

/-- Result of `tasks.handle_failed_transaction`: the sender wallet after
any refund, the refunded amount (0 when no refund applied), and how many
SMS notifications were dispatched. -/
structure FailedHandling where
  sender_after : Option Wallet
  refund_amount : Rat
  notifications : Nat
  deriving DecidableEq, Repr

/-- `tasks.handle_failed_transaction`: credits the full `tx.amount` back
to `tx.from_wallet` when a sender exists and the kind is not `purchase`,
then sends one failure SMS whenever a sender exists. -/
def handle_failed_transaction (rate : Rat) (tx : Transaction)
    (sender : Option Wallet) : FailedHandling :=
  let refunded :=
    match sender with
    | some w =>
        if tx.transaction_type ≠ TxType.purchase then
          (some (add_balance rate w tx.amount), tx.amount)
        else (some w, (0 : Rat))
    | none => (none, (0 : Rat))
  let notes : Nat :=
    match sender with
    | some _ => 1
    | none => 0
  { sender_after := refunded.1, refund_amount := refunded.2,
    notifications := notes }

/-- `tasks.process_confirmed_transaction`: dispatches SMS notifications to
whichever parties exist and kind-specific follow-up tasks; it performs no
wallet balance mutation, so it returns the parties' wallets unchanged
together with the number of SMS messages sent. -/
def process_confirmed_transaction (_tx : Transaction)
    (sender recipient : Option Wallet) : Option Wallet × Option Wallet × Nat :=
  let notes : Nat :=
    (match sender with | some _ => 1 | none => 0) +
    (match recipient with | some _ => 1 | none => 0)
  (sender, recipient, notes)

/-- The sweeper's whole confirm step for one transaction, as the claimed
"mark confirmed + credit destination" unit: the `sync_one` confirmation
followed by `process_confirmed_transaction` on the destination wallet.
Returns the updated record and the destination wallet after the step. -/
def sweeper_confirm_step (chain : String → ChainReport) (now : Nat)
    (tx : Transaction) (dest : Wallet) : Transaction × Wallet :=
  let eff := sync_one chain now tx
  if eff.enqueue_confirmed then
    let p := process_confirmed_transaction eff.tx_after none (some dest)
    (eff.tx_after, (p.2.1).getD dest)
  else
    (eff.tx_after, dest)

/-- Is the external reference `h` already taken by a stored row?  Models
the database uniqueness lookup behind the `unique=True` declaration on
`Transaction.ethereum_tx_hash`. -/
def hashTaken (txs : List Transaction) (h : String) : Bool :=
  txs.any fun t => t.ethereum_tx_hash == some h

/-- Insertion of a transaction row (`Transaction.objects.create`) under
the `unique=True` constraint the model declares on `ethereum_tx_hash`:
a row carrying an already-present non-null hash raises `IntegrityError`
and stores nothing; any other row is inserted. -/
def create_transaction (txs : List Transaction) (tx : Transaction) :
    Except LedgerError (List Transaction) :=
  match tx.ethereum_tx_hash with
  | some h =>
      if hashTaken txs h then Except.error LedgerError.duplicateReference
      else Except.ok (tx :: txs)
  | none => Except.ok (tx :: txs)

/-- At most one stored row per non-null external reference. -/
def uniqueHashes (txs : List Transaction) : Prop :=
  txs.Pairwise fun a b =>
    ∀ h, a.ethereum_tx_hash = some h → b.ethereum_tx_hash ≠ some h

/-- Number of stored rows carrying the external reference `h`. -/
def countWithHash (txs : List Transaction) (h : String) : Nat :=
  (txs.filter fun t => t.ethereum_tx_hash == some h).length

/-- The stored wallet row, restricted to the two columns the transfer
path can touch.  The only save on this path is
`update_naira_equivalent`'s
`self.save(update_fields=['naira_equivalent', 'updated_at'])`
(models.py:86): `deduct_balance`/`add_balance` change `agrocoin_balance`
only on the request's in-memory instance, and that column is never
written back to the row by the transfer view. -/
structure WalletRow where
  agrocoin_balance : Rat
  naira_equivalent : Rat
  deriving DecidableEq, Repr

/-- In-flight state of one concurrent transfer request against a shared
sender wallet row.  Each Django request loads its own `Wallet` instance
(`request.user.wallet`), runs `has_sufficient_balance` on that in-memory
copy, and `deduct_balance` subtracts from the copy; neither the view nor
the model takes any row lock (`select_for_update` is never used), so the
loads and saves of different requests can interleave freely. -/
structure TransferProc where
  cached : Option Rat
  outcome : Option Bool
  deriving DecidableEq, Repr

/-- One micro-step of a transfer request: first the load of the wallet
row into the request's instance, then the check-and-save of
`has_sufficient_balance` / `deduct_balance` operating on the cached copy:
on success the instance's balance becomes `c - amount` and
`update_naira_equivalent` writes `(c - amount) * rate` to the row's
`naira_equivalent` column — `update_fields` omits `agrocoin_balance`, so
the row's balance column is left as it was. -/
def procStep (rate amount : Rat) (store : WalletRow) (p : TransferProc) :
    WalletRow × TransferProc :=
  match p.cached, p.outcome with
  | none, _ => (store, { p with cached := some store.agrocoin_balance })
  | some c, none =>
      if amount ≤ c then
        ({ store with naira_equivalent := (c - amount) * rate },
          { p with outcome := some true })
      else (store, { p with outcome := some false })
  | some _, some _ => (store, p)

/-- Shared state of two concurrent transfer requests from the same wallet:
the stored wallet row plus each request's state. -/
structure RaceState where
  store_row : WalletRow
  p1 : TransferProc
  p2 : TransferProc
  deriving DecidableEq, Repr

/-- Scheduler step: run the next micro-step of the chosen request. -/
def raceStep (rate amount : Rat) (s : RaceState) (who : Bool) : RaceState :=
  if who then
    let r := procStep rate amount s.store_row s.p2
    { s with store_row := r.1, p2 := r.2 }
  else
    let r := procStep rate amount s.store_row s.p1
    { s with store_row := r.1, p1 := r.2 }

/-- Run a schedule (`false` = request 1 moves, `true` = request 2 moves). -/
def runRace (rate amount : Rat) (s : RaceState) (sched : List Bool) :
    RaceState :=
  sched.foldl (raceStep rate amount) s

/-- Both requests start before loading the shared wallet row of balance
`b` (fiat cache consistent with `b` at rate `rate`). -/
def initRace (rate b : Rat) : RaceState :=
  { store_row := { agrocoin_balance := b, naira_equivalent := b * rate }
    p1 := { cached := none, outcome := none }
    p2 := { cached := none, outcome := none } }

/-- Scenario wallet W1 of the spec: balance 500.00 AC. -/
def walletW1 : Wallet :=
  { wallet_id := 1, agrocoin_balance := 500, naira_equivalent := 750000 }

/-- Scenario wallet W2: balance 100.00 AC. -/
def walletW2 : Wallet :=
  { wallet_id := 2, agrocoin_balance := 100, naira_equivalent := 150000 }

/-- The AGROCOIN_TO_NAIRA_RATE used to evaluate concrete scenarios. -/
def demoRate : Rat := 1500

/-- Scenario B run: transfer of 200.00 AC from W1 to W2 with the external
settlement layer engaged (non-demo mode) and the submission succeeding. -/
def scenarioBRun : TransferViewResult × Wallet × Option Wallet × List Transaction :=
  viewTransferTokens false "unused" (SettlementOutcome.submitted "0xabc123")
    demoRate 7 100 walletW1 (some walletW2) false 200 []

/-- A processing transaction awaiting external settlement, as the sweeper
would select it: transfer of 200.00 AC from W1 to W2 with reference. -/
def processingTx : Transaction :=
  { tx_id := 7
    from_wallet := some 1
    to_wallet := some 2
    transaction_type := TxType.transfer
    amount := 200
    naira_value := 300000
    ethereum_tx_hash := some "0xabc123"
    block_number := none
    gas_used := none
    status := TxStatus.processing
    platform_fee := 0
    created_at := 100
    confirmed_at := none }

/-- A chain view on which the reference of `processingTx` is confirmed. -/
def chainConfirming : String → ChainReport :=
  fun _ => ChainReport.receiptOk 12345 52000

/-- A chain view on which the reference of `processingTx` has failed. -/
def chainFailing : String → ChainReport :=
  fun _ => ChainReport.receiptFailed 12345 52000

/-- The sender wallet state produced by `scenarioBRun`. -/
def scenarioBSender : Wallet :=
  { wallet_id := 1, agrocoin_balance := 300, naira_equivalent := 450000 }

/-- The recipient wallet state produced by `scenarioBRun`. -/
def scenarioBRecipient : Wallet :=
  { wallet_id := 2, agrocoin_balance := 300, naira_equivalent := 450000 }

/-- The transaction record produced by `scenarioBRun`. -/
def scenarioBTxn : Transaction :=
  { tx_id := 7
    from_wallet := some 1
    to_wallet := some 2
    transaction_type := TxType.transfer
    amount := 200
    naira_value := 300000
    ethereum_tx_hash := some "0xabc123"
    block_number := none
    gas_used := none
    status := TxStatus.confirmed
    platform_fee := 0
    created_at := 100
    confirmed_at := some 100 }

/-- A transaction whose external reference collides with nothing stored. -/
def freshTx : Transaction :=
  { processingTx with tx_id := 8, ethereum_tx_hash := some "0xnew" }

theorem applyOp_balance_nonneg (rate : Rat) (w : Wallet) (op : LedgerOp)
    (h0 : 0 ≤ w.agrocoin_balance)
    (hc : ∀ a : Rat, op = LedgerOp.credit a → 0 ≤ a) :
    0 ≤ (applyOp rate w op).agrocoin_balance := by
  cases op with
  | credit a =>
      have ha : 0 ≤ a := hc a rfl
      simp [applyOp, add_balance, update_naira_equivalent]
      linarith
  | debit a =>
      by_cases hle : a ≤ w.agrocoin_balance
      · have hsuf : has_sufficient_balance w a = true := by
          simp [has_sufficient_balance, hle]
        simp [applyOp, deduct_balance, hsuf, update_naira_equivalent]
        linarith
      · have hsuf : has_sufficient_balance w a = false := by
          simp [has_sufficient_balance, hle]
        simpa [applyOp, deduct_balance, hsuf] using h0

theorem runOps_balance_nonneg (rate : Rat) (ops : List LedgerOp) (w : Wallet)
    (h0 : 0 ≤ w.agrocoin_balance) (hc : creditAmountsNonneg ops = true) :
    0 ≤ (runOps rate w ops).agrocoin_balance := by
  induction ops generalizing w with
  | nil => simpa [runOps] using h0
  | cons op rest ih =>
      rw [creditAmountsNonneg, List.all_cons, Bool.and_eq_true] at hc
      have hstep : 0 ≤ (applyOp rate w op).agrocoin_balance := by
        refine applyOp_balance_nonneg rate w op h0 ?_
        intro a hop
        subst hop
        simpa using hc.1
      have := ih (applyOp rate w op) hstep hc.2
      simpa [runOps, List.foldl] using this

/-- C2: the claim fails as stated — the code's credit operation accepts a
negative amount (`Wallet.add_balance` performs no validation), so a
sequence consisting of a single credit of -1 drives a zero-balance wallet
negative. -/
theorem C2_negative_credit_counterexample :
    (runOps demoRate (demoWallet 0) [LedgerOp.credit (-1)]).agrocoin_balance < 0 := by
  norm_num [runOps, applyOp, add_balance, update_naira_equivalent, demoWallet]

/-- C2 amended: for every wallet with nonnegative balance and every
sequence of debit/credit operations whose credit amounts are nonnegative,
the balance stays nonnegative; a debit whose amount exceeds the current
balance raises `ValueError` and is not applied at all (never clamped or
partial). -/
theorem C2_amended_balance_nonneg (rate : Rat) (w : Wallet)
    (ops : List LedgerOp) (a : Rat)
    (h0 : 0 ≤ w.agrocoin_balance) (hc : creditAmountsNonneg ops = true)
    (ha : w.agrocoin_balance < a) :
    0 ≤ (runOps rate w ops).agrocoin_balance ∧
    deduct_balance rate w a = Except.error LedgerError.insufficientBalance ∧
    applyOp rate w (LedgerOp.debit a) = w := by
  have hsuf : has_sufficient_balance w a = false := by
    simp only [has_sufficient_balance, decide_eq_false_iff_not]
    exact not_le.mpr ha
  refine ⟨runOps_balance_nonneg rate ops w h0 hc, ?_, ?_⟩
  · simp [deduct_balance, hsuf]
  · simp [applyOp, deduct_balance, hsuf]

theorem C2_amended_balance_nonneg_witness :
    0 ≤ (runOps demoRate (demoWallet 100)
        [LedgerOp.credit 50, LedgerOp.debit 60, LedgerOp.debit 1000]).agrocoin_balance ∧
    deduct_balance demoRate (demoWallet 100) 1000
        = Except.error LedgerError.insufficientBalance ∧
    applyOp demoRate (demoWallet 100) (LedgerOp.debit 1000) = demoWallet 100 :=
  C2_amended_balance_nonneg demoRate (demoWallet 100)
    [LedgerOp.credit 50, LedgerOp.debit 60, LedgerOp.debit 1000] 1000
    (by decide) (by decide) (by decide)

/-- C9: the claim fails as stated — `Wallet.add_balance` never fails: a
credit of the non-positive amount -50 is accepted and changes the balance
from 100 to 50 instead of failing with `InvalidAmount`. -/
theorem C9_credit_nonpositive_counterexample :
    (-50 : Rat) ≤ 0 ∧
    (add_balance demoRate (demoWallet 100) (-50)).agrocoin_balance = 50 ∧
    (add_balance demoRate (demoWallet 100) (-50)).agrocoin_balance
        ≠ (demoWallet 100).agrocoin_balance := by
  refine ⟨by norm_num, ?_, ?_⟩ <;>
    norm_num [add_balance, update_naira_equivalent, demoWallet]

/-- C9 amended: the ledger credit operation (`Wallet.add_balance`) is
total — it never fails for any amount, positive or not; it always adds
exactly the given amount to the balance and recomputes the cached fiat
equivalent in the same step, leaving the wallet identity unchanged.  In
particular it never fails for any amount > 0, as claimed, but an amount
<= 0 is applied as-is rather than rejected with `InvalidAmount`. -/
theorem C9_amended_credit_total (rate : Rat) (w : Wallet) (amount : Rat) :
    (add_balance rate w amount).agrocoin_balance = w.agrocoin_balance + amount ∧
    (add_balance rate w amount).naira_equivalent
        = (w.agrocoin_balance + amount) * rate ∧
    (add_balance rate w amount).wallet_id = w.wallet_id := by
  simp [add_balance, update_naira_equivalent]

/-- C8: a transfer whose amount exceeds the sender's balance is rejected
up front with the "Insufficient balance" 400 response: no Transaction
record is created and the sender's and recipient's stored states are
untouched. -/
theorem C8_insufficient_funds_rejected (demo : Bool) (dh : String)
    (st : SettlementOutcome) (rate : Rat) (nid now : Nat) (sender : Wallet)
    (rl : Option Wallet) (self : Bool) (amount : Rat) (txs : List Transaction)
    (h0 : 0 ≤ sender.agrocoin_balance) (h1 : sender.agrocoin_balance < amount) :
    viewTransferTokens demo dh st rate nid now sender rl self amount txs =
      (TransferViewResult.badRequest LedgerError.insufficientBalance,
        sender, rl, txs) := by
  have hpos : ¬ amount ≤ 0 := by
    intro hle
    exact absurd (lt_of_le_of_lt hle (lt_of_le_of_lt h0 h1)) (lt_irrefl _)
  have hsuf : has_sufficient_balance sender amount = false := by
    simp only [has_sufficient_balance, decide_eq_false_iff_not]
    exact not_le.mpr h1
  simp [viewTransferTokens, hpos, hsuf]

theorem C8_insufficient_funds_rejected_witness :
    viewTransferTokens true "0xdemo" (SettlementOutcome.submitted "0xabc123")
        demoRate 7 100 walletW1 (some walletW2) false 1000 [] =
      (TransferViewResult.badRequest LedgerError.insufficientBalance,
        walletW1, some walletW2, []) :=
  C8_insufficient_funds_rejected true "0xdemo"
    (SettlementOutcome.submitted "0xabc123") demoRate 7 100 walletW1
    (some walletW2) false 1000 [] (by decide) (by decide)

theorem ethereum_transfer_ok_spec (demo : Bool) (dh : String)
    (st : SettlementOutcome) (rate : Rat) (fw tw : Wallet) (amount : Rat)
    (fw2 tw2 : Wallet) (res : TransferResult)
    (h : ethereum_transfer_tokens demo dh st rate fw tw amount
        = Except.ok (fw2, tw2, res)) :
    fw2 = update_naira_equivalent rate
        { fw with agrocoin_balance := fw.agrocoin_balance - amount } ∧
    tw2 = add_balance rate tw amount ∧
    res.result_status = TxStatus.confirmed ∧
    res.result_amount = amount := by
  unfold ethereum_transfer_tokens at h
  split at h
  · exact absurd h (by simp)
  · rename_i hs
    rw [not_not] at hs
    simp only [deduct_balance, hs, if_true] at h
    cases demo with
    | true =>
        simp only [if_true] at h
        simp only [Except.ok.injEq, Prod.mk.injEq] at h
        obtain ⟨h1, h2, h3⟩ := h
        exact ⟨h1.symm, h2.symm, by rw [← h3], by rw [← h3]⟩
    | false =>
        cases st with
        | submitted hh =>
            simp only [Bool.false_eq_true, if_false] at h
            simp only [Except.ok.injEq, Prod.mk.injEq] at h
            obtain ⟨h1, h2, h3⟩ := h
            exact ⟨h1.symm, h2.symm, by rw [← h3], by rw [← h3]⟩
        | exception =>
            exact absurd h (by simp)

theorem viewTransfer_created_spec (demo : Bool) (dh : String)
    (st : SettlementOutcome) (rate : Rat) (nid now : Nat)
    (sender recipient : Wallet) (self : Bool) (amount : Rat)
    (txs : List Transaction) (s2 r2 : Wallet) (txn : Transaction)
    (h : (viewTransferTokens demo dh st rate nid now sender (some recipient)
        self amount txs).1 = TransferViewResult.created s2 r2 txn) :
    s2 = update_naira_equivalent rate
        { sender with agrocoin_balance := sender.agrocoin_balance - amount } ∧
    r2 = add_balance rate recipient amount ∧
    txn.status = TxStatus.confirmed ∧
    txn.platform_fee = 0 ∧
    txn.amount = amount := by
  unfold viewTransferTokens at h
  split at h
  · exact absurd h (by simp)
  · split at h
    · exact absurd h (by simp)
    · split at h
      · exact absurd h (by simp)
      · rename_i rl recw heq
        injection heq with heq2
        subst heq2
        split at h
        · exact absurd h (by simp)
        · cases hE : ethereum_transfer_tokens demo dh st rate sender recipient amount with
          | error e =>
              rw [hE] at h
              exact absurd h (by simp)
          | ok val =>
              obtain ⟨sender2, recipient2, result⟩ := val
              rw [hE] at h
              simp only [TransferViewResult.created.injEq] at h
              obtain ⟨h1, h2, h3⟩ := h
              obtain ⟨e1, e2, e3, e4⟩ :=
                ethereum_transfer_ok_spec demo dh st rate sender recipient amount
                  sender2 recipient2 result hE
              refine ⟨?_, ?_, ?_, ?_, ?_⟩
              · rw [← h1]; exact e1
              · rw [← h2]; exact e2
              · rw [← h3]
              · rw [← h3]
              · rw [← h3]

theorem scenarioBRun_eval :
    scenarioBRun.1 = TransferViewResult.created scenarioBSender
      scenarioBRecipient scenarioBTxn := by
  norm_num [scenarioBRun, viewTransferTokens, ethereum_transfer_tokens,
    deduct_balance, has_sufficient_balance, add_balance,
    update_naira_equivalent, walletW1, walletW2, demoRate, scenarioBSender,
    scenarioBRecipient, scenarioBTxn]

/-- C1: the claim fails as stated — with the external settlement layer
engaged (non-demo mode, the only non-immediate-settlement mode in the
code) and the submission succeeding, the transfer of 200 AC from W1 to W2
returns a transaction already in status `confirmed`, not `processing`,
and the destination wallet's balance has already been credited the full
amount within the call. -/
theorem C1_async_counterexample :
    scenarioBRun.1 = TransferViewResult.created scenarioBSender
        scenarioBRecipient scenarioBTxn ∧
    scenarioBTxn.status = TxStatus.confirmed ∧
    scenarioBTxn.status ≠ TxStatus.processing ∧
    scenarioBRecipient.agrocoin_balance
        = walletW2.agrocoin_balance + 200 ∧
    scenarioBRecipient.agrocoin_balance ≠ walletW2.agrocoin_balance := by
  refine ⟨scenarioBRun_eval, rfl, by simp [scenarioBTxn], ?_, ?_⟩ <;>
    norm_num [scenarioBRecipient, walletW2]

/-- C1 amended: the code has no asynchronous settlement path — in every
mode, every transfer that returns successfully does so with the
transaction already `confirmed` (never `processing`) and the destination
wallet credited the full amount during the call; there is nothing left
for the Sweeper to credit. -/
theorem C1_amended_sync_confirmed (demo : Bool) (dh : String)
    (st : SettlementOutcome) (rate : Rat) (nid now : Nat)
    (sender recipient : Wallet) (self : Bool) (amount : Rat)
    (txs : List Transaction) (s2 r2 : Wallet) (txn : Transaction)
    (h : (viewTransferTokens demo dh st rate nid now sender (some recipient)
        self amount txs).1 = TransferViewResult.created s2 r2 txn) :
    txn.status = TxStatus.confirmed ∧
    txn.status ≠ TxStatus.processing ∧
    r2.agrocoin_balance = recipient.agrocoin_balance + amount := by
  obtain ⟨e1, e2, e3, e4, e5⟩ := viewTransfer_created_spec demo dh st rate
    nid now sender recipient self amount txs s2 r2 txn h
  refine ⟨e3, ?_, ?_⟩
  · rw [e3]; simp
  · rw [e2]; simp [add_balance, update_naira_equivalent]

theorem C1_amended_sync_confirmed_witness :
    scenarioBTxn.status = TxStatus.confirmed ∧
    scenarioBTxn.status ≠ TxStatus.processing ∧
    scenarioBRecipient.agrocoin_balance = walletW2.agrocoin_balance + 200 :=
  C1_amended_sync_confirmed false "unused" (SettlementOutcome.submitted "0xabc123")
    demoRate 7 100 walletW1 walletW2 false 200 [] scenarioBSender
    scenarioBRecipient scenarioBTxn scenarioBRun_eval

/-- C10: every successful transfer credits the destination the full
amount — the platform fee is never netted out: the destination gains
exactly `amount`, the sender loses exactly `amount`, the sum of the two
balances is preserved, the created transfer record carries
`platform_fee = 0` (the model default), and `calculate_platform_fee` only
assigns `amount * commission` for the kinds `payment`, `expert_payment`
and `marketplace_purchase`, touching no wallet balance and no transaction
amount. -/
theorem C10_full_amount_credited_fee_informational (demo : Bool) (dh : String)
    (st : SettlementOutcome) (rate : Rat) (nid now : Nat)
    (sender recipient : Wallet) (self : Bool) (amount : Rat)
    (txs : List Transaction) (s2 r2 : Wallet) (txn : Transaction)
    (commission : Rat) (tx2 : Transaction)
    (h : (viewTransferTokens demo dh st rate nid now sender (some recipient)
        self amount txs).1 = TransferViewResult.created s2 r2 txn) :
    r2.agrocoin_balance = recipient.agrocoin_balance + amount ∧
    s2.agrocoin_balance = sender.agrocoin_balance - amount ∧
    s2.agrocoin_balance + r2.agrocoin_balance
        = sender.agrocoin_balance + recipient.agrocoin_balance ∧
    txn.platform_fee = 0 ∧
    (calculate_platform_fee commission tx2).1.platform_fee =
      (if tx2.transaction_type = TxType.payment ∨
          tx2.transaction_type = TxType.expert_payment ∨
          tx2.transaction_type = TxType.marketplace_purchase
        then tx2.amount * commission else tx2.platform_fee) ∧
    (calculate_platform_fee commission tx2).1.amount = tx2.amount ∧
    (calculate_platform_fee commission tx2).1.from_wallet = tx2.from_wallet ∧
    (calculate_platform_fee commission tx2).1.to_wallet = tx2.to_wallet := by
  obtain ⟨e1, e2, e3, e4, e5⟩ := viewTransfer_created_spec demo dh st rate
    nid now sender recipient self amount txs s2 r2 txn h
  have hr : r2.agrocoin_balance = recipient.agrocoin_balance + amount := by
    rw [e2]; simp [add_balance, update_naira_equivalent]
  have hsb : s2.agrocoin_balance = sender.agrocoin_balance - amount := by
    rw [e1]; simp [update_naira_equivalent]
  refine ⟨hr, hsb, by rw [hr, hsb]; ring, e4, ?_, ?_, ?_, ?_⟩ <;>
    · unfold calculate_platform_fee
      split <;> simp_all

theorem C10_full_amount_credited_fee_informational_witness :
    scenarioBRecipient.agrocoin_balance = walletW2.agrocoin_balance + 200 ∧
    scenarioBSender.agrocoin_balance = walletW1.agrocoin_balance - 200 ∧
    scenarioBSender.agrocoin_balance + scenarioBRecipient.agrocoin_balance
        = walletW1.agrocoin_balance + walletW2.agrocoin_balance ∧
    scenarioBTxn.platform_fee = 0 ∧
    (calculate_platform_fee (1 / 20) processingTx).1.platform_fee =
      (if processingTx.transaction_type = TxType.payment ∨
          processingTx.transaction_type = TxType.expert_payment ∨
          processingTx.transaction_type = TxType.marketplace_purchase
        then processingTx.amount * (1 / 20) else processingTx.platform_fee) ∧
    (calculate_platform_fee (1 / 20) processingTx).1.amount = processingTx.amount ∧
    (calculate_platform_fee (1 / 20) processingTx).1.from_wallet = processingTx.from_wallet ∧
    (calculate_platform_fee (1 / 20) processingTx).1.to_wallet = processingTx.to_wallet :=
  C10_full_amount_credited_fee_informational false "unused"
    (SettlementOutcome.submitted "0xabc123") demoRate 7 100 walletW1 walletW2
    false 200 [] scenarioBSender scenarioBRecipient scenarioBTxn (1 / 20)
    processingTx scenarioBRun_eval

/-- C4: when the sweeper observes an explicit on-chain failure for a
transaction with a sender and a non-purchase kind, the record is marked
`failed`, the failure handler is enqueued exactly once, and that handler
credits the sender's wallet back the full transfer amount exactly once
and emits exactly one compensating notification. -/
theorem C4_failed_refund_once (chain : String → ChainReport) (now : Nat)
    (rate : Rat) (tx : Transaction) (sender : Wallet) (h : String) (b g : Nat)
    (hhash : tx.ethereum_tx_hash = some h)
    (hchain : chain h = ChainReport.receiptFailed b g)
    (htype : tx.transaction_type ≠ TxType.purchase) :
    (sync_one chain now tx).tx_after.status = TxStatus.failed ∧
    (sync_one chain now tx).enqueue_failed = true ∧
    (handle_failed_transaction rate (sync_one chain now tx).tx_after
        (some sender)).sender_after
      = some (add_balance rate sender tx.amount) ∧
    (handle_failed_transaction rate (sync_one chain now tx).tx_after
        (some sender)).refund_amount = tx.amount ∧
    (handle_failed_transaction rate (sync_one chain now tx).tx_after
        (some sender)).notifications = 1 ∧
    (add_balance rate sender tx.amount).agrocoin_balance
      = sender.agrocoin_balance + tx.amount := by
  have hsync : sync_one chain now tx =
      { tx_after := { tx with status := TxStatus.failed },
        enqueue_confirmed := false, enqueue_failed := true } := by
    simp [sync_one, hhash, hchain, verify_transaction]
  rw [hsync]
  refine ⟨rfl, rfl, ?_, ?_, rfl, by simp [add_balance, update_naira_equivalent]⟩ <;>
    simp [handle_failed_transaction, htype]

theorem C4_failed_refund_once_witness :
    (sync_one chainFailing 130 processingTx).tx_after.status = TxStatus.failed ∧
    (sync_one chainFailing 130 processingTx).enqueue_failed = true ∧
    (handle_failed_transaction demoRate (sync_one chainFailing 130 processingTx).tx_after
        (some (demoWallet 300))).sender_after
      = some (add_balance demoRate (demoWallet 300) processingTx.amount) ∧
    (handle_failed_transaction demoRate (sync_one chainFailing 130 processingTx).tx_after
        (some (demoWallet 300))).refund_amount = processingTx.amount ∧
    (handle_failed_transaction demoRate (sync_one chainFailing 130 processingTx).tx_after
        (some (demoWallet 300))).notifications = 1 ∧
    (add_balance demoRate (demoWallet 300) processingTx.amount).agrocoin_balance
      = (demoWallet 300).agrocoin_balance + processingTx.amount :=
  C4_failed_refund_once chainFailing 130 demoRate processingTx (demoWallet 300)
    "0xabc123" 12345 52000 rfl rfl (by decide)

theorem sweeper_confirm_step_dest (chain : String → ChainReport) (now : Nat)
    (tx : Transaction) (dest : Wallet) :
    (sweeper_confirm_step chain now tx dest).2 = dest := by
  simp only [sweeper_confirm_step]
  split <;> simp [process_confirmed_transaction]

/-- C5: the claim fails as stated — the sweeper's "mark confirmed" step
performs no destination credit at all (the destination was credited at
transfer time), so running it twice on the same processing transaction
leaves the destination balance unchanged, which is not "credited exactly
once" for the nonzero transfer amount 200. -/
theorem C5_confirm_no_credit_counterexample :
    (sweeper_confirm_step chainConfirming 130 processingTx walletW2).2.agrocoin_balance
        = walletW2.agrocoin_balance ∧
    (sweeper_confirm_step chainConfirming 131
        (sweeper_confirm_step chainConfirming 130 processingTx walletW2).1
        ((sweeper_confirm_step chainConfirming 130 processingTx walletW2).2)).2.agrocoin_balance
        = walletW2.agrocoin_balance ∧
    (sweeper_confirm_step chainConfirming 130 processingTx walletW2).1.status
        = TxStatus.confirmed ∧
    walletW2.agrocoin_balance ≠ walletW2.agrocoin_balance + processingTx.amount := by
  refine ⟨rfl, rfl, rfl, ?_⟩
  norm_num [walletW2, processingTx]

/-- C5 amended: the sweeper's confirm step marks the transaction
`confirmed` but never credits the destination wallet — the credit happens
once, at transfer time — so running the step twice trivially leaves the
destination balance unchanged; a confirmed transaction is excluded from
later sweeps by the pending/processing queryset filter, not by a
forward-only status guard (the status write itself is unconditional). -/
theorem C5_amended_confirm_never_credits (chain : String → ChainReport)
    (now now2 : Nat) (tx : Transaction) (dest : Wallet) (h : String) (b g : Nat)
    (hhash : tx.ethereum_tx_hash = some h)
    (hchain : chain h = ChainReport.receiptOk b g) :
    (sweeper_confirm_step chain now tx dest).2 = dest ∧
    (sweeper_confirm_step chain now2 (sweeper_confirm_step chain now tx dest).1
        ((sweeper_confirm_step chain now tx dest).2)).2 = dest ∧
    (sweeper_confirm_step chain now tx dest).1.status = TxStatus.confirmed ∧
    sweep_selects now2 (sweeper_confirm_step chain now tx dest).1 = false := by
  have hd := sweeper_confirm_step_dest chain now tx dest
  refine ⟨hd, ?_, ?_, ?_⟩
  · rw [hd]; exact sweeper_confirm_step_dest chain now2 _ dest
  · simp [sweeper_confirm_step, sync_one, hhash, hchain, verify_transaction]
  · simp [sweeper_confirm_step, sync_one, hhash, hchain, verify_transaction,
      sweep_selects]

theorem C5_amended_confirm_never_credits_witness :
    (sweeper_confirm_step chainConfirming 130 processingTx walletW2).2 = walletW2 ∧
    (sweeper_confirm_step chainConfirming 131
        (sweeper_confirm_step chainConfirming 130 processingTx walletW2).1
        ((sweeper_confirm_step chainConfirming 130 processingTx walletW2).2)).2 = walletW2 ∧
    (sweeper_confirm_step chainConfirming 130 processingTx walletW2).1.status
        = TxStatus.confirmed ∧
    sweep_selects 131 (sweeper_confirm_step chainConfirming 130 processingTx walletW2).1
        = false :=
  C5_amended_confirm_never_credits chainConfirming 130 131 processingTx walletW2
    "0xabc123" 12345 52000 rfl rfl

/-- C6: the sweeper triggers the failed path (mark failed and enqueue the
refund handler) only when the chain explicitly reports a mined receipt
with failure status; a network/RPC error (timeouts included), a still
pending transaction, or an unknown reference leaves the record completely
unchanged for a later sweep, with no follow-up task enqueued. -/
theorem C6_failed_only_on_explicit_failure (chain : String → ChainReport)
    (now : Nat) (tx : Transaction) :
    ((sync_one chain now tx).enqueue_failed = true →
        ∃ h b g, tx.ethereum_tx_hash = some h ∧
          chain h = ChainReport.receiptFailed b g) ∧
    (∀ h, tx.ethereum_tx_hash = some h →
        (chain h = ChainReport.rpcError ∨ chain h = ChainReport.inMempool ∨
          chain h = ChainReport.missing) →
        sync_one chain now tx =
          { tx_after := tx, enqueue_confirmed := false,
            enqueue_failed := false }) := by
  constructor
  · intro hf
    cases hh : tx.ethereum_tx_hash with
    | none => simp [sync_one, hh] at hf
    | some h =>
        cases hc : chain h with
        | receiptOk b g => simp [sync_one, hh, hc, verify_transaction] at hf
        | receiptFailed b g => exact ⟨h, b, g, rfl, hc⟩
        | inMempool => simp [sync_one, hh, hc, verify_transaction] at hf
        | missing => simp [sync_one, hh, hc, verify_transaction] at hf
        | rpcError => simp [sync_one, hh, hc, verify_transaction] at hf
  · intro h hh hor
    rcases hor with hc | hc | hc <;>
      simp [sync_one, hh, hc, verify_transaction]

theorem C6_failed_only_on_explicit_failure_witness :
    sync_one (fun _ => ChainReport.rpcError) 130 processingTx =
      { tx_after := processingTx, enqueue_confirmed := false,
        enqueue_failed := false } :=
  (C6_failed_only_on_explicit_failure (fun _ => ChainReport.rpcError) 130
      processingTx).2 "0xabc123" rfl (Or.inl rfl)

theorem countWithHash_eq_zero (txs : List Transaction) (h : String)
    (hnone : ∀ t ∈ txs, t.ethereum_tx_hash ≠ some h) :
    countWithHash txs h = 0 := by
  simp only [countWithHash, List.length_eq_zero, List.filter_eq_nil_iff]
  intro t ht
  simpa using hnone t ht

theorem uniqueHashes_count_le_one (txs : List Transaction)
    (hinv : uniqueHashes txs) (h : String) : countWithHash txs h ≤ 1 := by
  induction txs with
  | nil => simp [countWithHash]
  | cons a l ih =>
      rw [uniqueHashes, List.pairwise_cons] at hinv
      obtain ⟨ha, hl⟩ := hinv
      by_cases hah : a.ethereum_tx_hash = some h
      · have h0 : countWithHash l h = 0 :=
          countWithHash_eq_zero l h (fun t ht => ha t ht h hah)
        have hcons : countWithHash (a :: l) h = countWithHash l h + 1 := by
          simp [countWithHash, List.filter_cons, hah]
        rw [hcons, h0]
      · have hcons : countWithHash (a :: l) h = countWithHash l h := by
          simp [countWithHash, List.filter_cons, hah]
        rw [hcons]
        exact ih hl

/-- C7: the uniqueness of the external settlement reference — inserting a
row whose non-null reference is already stored fails with the duplicate
error and stores nothing, and any insert that succeeds preserves the
at-most-one-row-per-reference invariant. -/
theorem C7_unique_external_reference (txs txs2 : List Transaction)
    (tx : Transaction) (h h2 : String)
    (hinv : uniqueHashes txs) :
    (create_transaction txs tx = Except.ok txs2 →
        uniqueHashes txs2 ∧ countWithHash txs2 h2 ≤ 1) ∧
    (tx.ethereum_tx_hash = some h → hashTaken txs h = true →
        create_transaction txs tx = Except.error LedgerError.duplicateReference) := by
  constructor
  · intro hok
    have hu : uniqueHashes txs2 := by
      unfold create_transaction at hok
      cases hh : tx.ethereum_tx_hash with
      | none =>
          rw [hh] at hok
          injection hok with hok2
          subst hok2
          rw [uniqueHashes, List.pairwise_cons]
          exact ⟨fun b hb h3 habs => absurd habs.symm (by simp [hh]), hinv⟩
      | some hx =>
          rw [hh] at hok
          by_cases htk : hashTaken txs hx
          · simp [htk] at hok
          · simp only [htk, if_false, Bool.false_eq_true] at hok
            injection hok with hok2
            subst hok2
            rw [uniqueHashes, List.pairwise_cons]
            refine ⟨?_, hinv⟩
            intro b hb h3 habs hbs
            rw [hh] at habs
            injection habs with habs2
            subst habs2
            rw [hashTaken] at htk
            simp only [List.any_eq_true, not_exists, not_and] at htk
            have := htk b hb
            simp [hbs] at this
    exact ⟨hu, uniqueHashes_count_le_one txs2 hu h2⟩
  · intro hh htk
    simp [create_transaction, hh, htk]

theorem C7_unique_external_reference_witness :
    uniqueHashes [freshTx, processingTx] ∧
    countWithHash [freshTx, processingTx] "0xabc123" ≤ 1 :=
  (C7_unique_external_reference [processingTx] [freshTx, processingTx] freshTx
      "0xnew" "0xabc123" (by simp [uniqueHashes])).1 rfl

/-- C3: the claim fails on the code — neither the transfer view nor the
wallet methods serialize the balance check with the debit (no row lock is
ever taken), and the debit itself is never persisted: the save in
`update_naira_equivalent` writes only `naira_equivalent`/`updated_at`, so
the row's `agrocoin_balance` column keeps its value.  For a wallet
holding 100 with two transfers of 60 each, both succeed under the
interleaved schedule and equally under the fully serial schedule (the
second request reloads the unchanged stored balance 100); in both runs
the stored balance is still 100 afterwards and only the cached fiat
column has been overwritten, last-write-wins, with (100 - 60) * rate —
never exactly one success with one insufficient-funds rejection. -/
theorem C3_double_spend_race :
    (runRace demoRate 60 (initRace demoRate 100)
        [false, true, false, true]).p1.outcome = some true ∧
    (runRace demoRate 60 (initRace demoRate 100)
        [false, true, false, true]).p2.outcome = some true ∧
    (runRace demoRate 60 (initRace demoRate 100)
        [false, true, false, true]).store_row.agrocoin_balance = 100 ∧
    (runRace demoRate 60 (initRace demoRate 100)
        [false, false, true, true]).p1.outcome = some true ∧
    (runRace demoRate 60 (initRace demoRate 100)
        [false, false, true, true]).p2.outcome = some true ∧
    (runRace demoRate 60 (initRace demoRate 100)
        [false, false, true, true]).store_row.agrocoin_balance = 100 ∧
    (runRace demoRate 60 (initRace demoRate 100)
        [false, false, true, true]).store_row.naira_equivalent = 60000 := by
  norm_num [runRace, raceStep, procStep, initRace, demoRate]

end Agrosphere
